import Mathlib

/-
Verification of the BMI calculator (src/bmi_adv_python.py).

Modelling conventions:
- Python floats entered by the user and produced by arithmetic are modelled
  as rationals (ℚ); Python round(x, 2) uses round-half-to-even, modelled
  exactly by roundHalfEven below.
- The JSON backing file of BMIHistory is modelled by FileState: the file can
  be absent, unreadable or unparseable (corrupt), or hold a parsed list of
  records.  json.dump always writes a parseable list, hence save_to_history
  always yields a contents state.
- The tkinter surface is presentation only; the record pipeline
  (calculate_bmi, _calculate_in_thread, save_to_history, load_history) is
  embedded as pure state-passing functions.
-/

namespace BMI

/-- Round-half-to-even to an integer, the rounding used by Python round. -/
def roundHalfEven (q : ℚ) : ℤ :=
  let n := ⌊q⌋
  if q - n < 1 / 2 then n
  else if 1 / 2 < q - n then n + 1
  else if n % 2 = 0 then n else n + 1

/-- Python round(q, 2): round to two decimal places, ties to even. -/
def pyRound2 (q : ℚ) : ℚ := (roundHalfEven (q * 100) : ℚ) / 100

/-- BMIProcessor.calculate_bmi_process: height in cm to meters, then
weight divided by the square, rounded to 2 decimals. -/
def calculate_bmi_process (weight height : ℚ) : ℚ :=
  let height_in_meters := height / 100
  let bmi := weight / height_in_meters ^ 2
  pyRound2 bmi

/-- One BMI record as persisted to bmi_history.json. -/
structure Record where
  timestamp : String
  weight : ℚ
  height : ℚ
  bmi : ℚ
  category : String
deriving DecidableEq

/-- State of the backing history file: absent, unreadable or unparseable
(an exception path in load_history), or holding a parsed record list.
An empty but present file is unparseable JSON, hence corrupt. -/
inductive FileState where
  | missing
  | corrupt
  | contents (l : List Record)
deriving DecidableEq

/-- BMIHistory.load_history: returns the parsed list, and the empty list
when the file is missing or any exception occurs (corrupt or unreadable
content). -/
def load_history (fs : FileState) : List Record :=
  match fs with
  | .missing => []
  | .corrupt => []
  | .contents l => l

/-- BMIHistory.save_to_history: read the existing history, append the new
record, and overwrite the file with the whole list. -/
def save_to_history (fs : FileState) (data : Record) : FileState :=
  .contents (load_history fs ++ [data])

/-- AdvancedBMICalculator.get_bmi_category: category name, display color
and advisory message for a BMI value.  The leading emoji of each advisory
message is elided (mojibake bytes in the source). -/
def get_bmi_category (bmi : ℚ) : String × String × String :=
  if bmi < 18.5 then
    ("Underweight", "lightblue",
      "UNDERWEIGHT: You are below the healthy weight range.\nRecommendation: Consider consulting a nutritionist for healthy weight gain.")
  else if 18.5 ≤ bmi ∧ bmi < 25 then
    ("Normal Weight", "green",
      "NORMAL WEIGHT: Congratulations! You are in the healthy weight range.\nRecommendation: Maintain your current lifestyle with balanced diet and regular exercise.")
  else if 25 ≤ bmi ∧ bmi < 30 then
    ("Overweight", "orange",
      "OVERWEIGHT: You are above the healthy weight range.\nRecommendation: Consider increasing physical activity and adjusting your diet.")
  else if 30 ≤ bmi ∧ bmi < 35 then
    ("Obese", "red",
      "OBESE: Your weight may pose health risks.\nRecommendation: Consult with a healthcare provider for weight management guidance.")
  else
    ("Severely Obese", "darkred",
      "SEVERELY OBESE: Immediate medical attention recommended.\nRecommendation: Please consult with a healthcare professional for comprehensive weight management.")

/-- The record built inside AdvancedBMICalculator._calculate_in_thread:
BMI computed from weight and height, rounded, categorized, and packed
with the creation timestamp. -/
def calculateInThreadRecord (weight height : ℚ) (ts : String) : Record :=
  let height_in_meters := height / 100
  let bmi := weight / height_in_meters ^ 2
  let bmi_rounded := pyRound2 bmi
  let category := (get_bmi_category bmi_rounded).1
  { timestamp := ts, weight := weight, height := height,
    bmi := bmi_rounded, category := category }

/-- The file-state effect of _calculate_in_thread: the built record is
handed to save_to_history. -/
def calculateInThread (weight height : ℚ) (ts : String) (fs : FileState) :
    FileState :=
  save_to_history fs (calculateInThreadRecord weight height ts)

/-- Outcome of a calculation request as seen by the user: an error dialog,
or a completed background calculation delivering BMI and category. -/
inductive Outcome where
  | rejected (msg : String)
  | completed (bmi : ℚ) (category : String)
deriving DecidableEq

/-- AdvancedBMICalculator.calculate_bmi: the synchronous entry point.
The entry fields parse to Option ℚ (none models the float() ValueError).
Non-numeric or non-positive input is rejected before any thread is
started; otherwise _calculate_in_thread runs, appends its record, and
delivers the result. -/
def calculate_bmi (fs : FileState) (ts : String)
    (weight_var height_var : Option ℚ) : FileState × Outcome :=
  match weight_var, height_var with
  | some weight, some height =>
    if weight ≤ 0 ∨ height ≤ 0 then
      (fs, .rejected "Please enter valid positive values")
    else
      let r := calculateInThreadRecord weight height ts
      (save_to_history fs r, .completed r.bmi r.category)
  | _, _ => (fs, .rejected "Please enter valid numbers")

/-- The record slice consumed by update_chart: history[-10:], the last 10
records. -/
def update_chart_records (history : List Record) : List Record :=
  history.drop (history.length - 10)

/-- The record slice consumed by _display_history: history[-20:], the last
20 records. -/
def display_history_slice (history : List Record) : List Record :=
  history.drop (history.length - 20)

/-- The rows of the history treeview, top row first: _display_history
iterates reversed(history[-20:]) and inserts each row at tree index 0
(modelled as consing onto the row list). -/
def display_history_rows (history : List Record) : List Record :=
  (display_history_slice history).reverse.foldl (fun rows record => record :: rows) []

/-- Modelled from the spec (section 8): the BMI formula
round(weight / (height/100)^2, 2), written independently of the code for
the refinement claim C1. -/
def specBMI (weight height : ℚ) : ℚ :=
  pyRound2 (weight / (height / 100) ^ 2)

/-- Modelled from the spec (section 4.1 threshold table): category
assignment by the five bands, boundaries inclusive on the lower bound. -/
def specCategory (bmi : ℚ) : String :=
  if bmi < 18.5 then "Underweight"
  else if bmi < 25 then "Normal Weight"
  else if bmi < 30 then "Overweight"
  else if bmi < 35 then "Obese"
  else "Severely Obese"

/-- Invariant of a stored record: its bmi field is the rounded BMI of its
own weight and height fields. -/
def bmiInvariant (r : Record) : Prop :=
  r.bmi = pyRound2 (r.weight / (r.height / 100) ^ 2)

/-- Invariant of the whole history: every record satisfies bmiInvariant. -/
def storeInvariant (l : List Record) : Prop :=
  ∀ r ∈ l, bmiInvariant r

/- Helper lemmas -/

/-- roundHalfEven rounds down when the value is below the halfway point. -/
lemma roundHalfEven_down (q : ℚ) (n : ℤ) (h1 : (n : ℚ) ≤ q)
    (h2 : q < n + 1 / 2) : roundHalfEven q = n := by
  have hfl : ⌊q⌋ = n := Int.floor_eq_iff.mpr ⟨h1, by linarith⟩
  simp only [roundHalfEven, hfl]
  rw [if_pos (by linarith)]

/-- roundHalfEven rounds up when the value is above the halfway point. -/
lemma roundHalfEven_up (q : ℚ) (n : ℤ) (h1 : (n : ℚ) + 1 / 2 < q)
    (h2 : q < n + 1) : roundHalfEven q = n + 1 := by
  have hfl : ⌊q⌋ = n := Int.floor_eq_iff.mpr ⟨by linarith, by linarith⟩
  simp only [roundHalfEven, hfl]
  rw [if_neg (by linarith), if_pos (by linarith)]

/-- Loading after a fold of appends yields the old contents plus the
appended records in order. -/
lemma load_foldl_save (rs : List Record) (fs : FileState) :
    load_history (rs.foldl save_to_history fs) = load_history fs ++ rs := by
  induction rs generalizing fs with
  | nil => simp
  | cons r rs ih =>
    rw [List.foldl_cons, ih]
    simp [save_to_history, load_history]

/-- Folding cons over a list prepends its reverse. -/
lemma foldl_cons_eq_reverse_append {α : Type} (l acc : List α) :
    l.foldl (fun rows x => x :: rows) acc = l.reverse ++ acc := by
  induction l generalizing acc with
  | nil => simp
  | cons x xs ih => simp [ih]

/-- The code category agrees with the spec threshold table everywhere. -/
lemma get_bmi_category_eq_specCategory (bmi : ℚ) :
    (get_bmi_category bmi).1 = specCategory bmi := by
  unfold get_bmi_category specCategory
  split_ifs <;> simp_all

/- Claim theorems -/

/-- C1: for every weight > 0 and height > 0, the BMI computed by
calculate_bmi_process, the BMI stored in the record built by
_calculate_in_thread, and the BMI delivered in the completed outcome of
calculate_bmi all equal round(weight / (height/100)^2, 2) as the spec
formula states. -/
theorem bmi_formula_matches_spec (weight height : ℚ) (ts : String)
    (fs : FileState) (hw : 0 < weight) (hh : 0 < height) :
    calculate_bmi_process weight height = specBMI weight height ∧
    (calculateInThreadRecord weight height ts).bmi = specBMI weight height ∧
    (calculate_bmi fs ts (some weight) (some height)).2 =
      Outcome.completed (specBMI weight height)
        ((get_bmi_category (specBMI weight height)).1) := by
  have hcond : ¬(weight ≤ 0 ∨ height ≤ 0) := by push_neg; exact ⟨hw, hh⟩
  refine ⟨rfl, rfl, ?_⟩
  simp [calculate_bmi, hcond, calculateInThreadRecord, specBMI]

/-- Witness for C1 at weight 70, height 175. -/
theorem bmi_formula_matches_spec_witness :
    calculate_bmi_process 70 175 = specBMI 70 175 ∧
    (calculateInThreadRecord 70 175 "2024-01-01T00:00:00").bmi = specBMI 70 175 ∧
    (calculate_bmi FileState.missing "2024-01-01T00:00:00" (some 70) (some 175)).2 =
      Outcome.completed (specBMI 70 175) ((get_bmi_category (specBMI 70 175)).1) :=
  bmi_formula_matches_spec 70 175 "2024-01-01T00:00:00" FileState.missing
    (by norm_num) (by norm_num)

/-- C2: category assignment is the total non-overlapping partition at
18.5, 25, 30, 35 given by the spec table, each band characterized exactly,
and every breakpoint belongs to the higher band. -/
theorem get_bmi_category_partition :
    (∀ bmi : ℚ,
      (get_bmi_category bmi).1 = specCategory bmi ∧
      ((get_bmi_category bmi).1 = "Underweight" ↔ bmi < 18.5) ∧
      ((get_bmi_category bmi).1 = "Normal Weight" ↔ 18.5 ≤ bmi ∧ bmi < 25) ∧
      ((get_bmi_category bmi).1 = "Overweight" ↔ 25 ≤ bmi ∧ bmi < 30) ∧
      ((get_bmi_category bmi).1 = "Obese" ↔ 30 ≤ bmi ∧ bmi < 35) ∧
      ((get_bmi_category bmi).1 = "Severely Obese" ↔ 35 ≤ bmi)) ∧
    (get_bmi_category 18.5).1 = "Normal Weight" ∧
    (get_bmi_category 25).1 = "Overweight" ∧
    (get_bmi_category 30).1 = "Obese" ∧
    (get_bmi_category 35).1 = "Severely Obese" := by
  constructor
  · intro bmi
    refine ⟨get_bmi_category_eq_specCategory bmi, ?_, ?_, ?_, ?_, ?_⟩ <;>
      rw [get_bmi_category_eq_specCategory] <;> unfold specCategory <;>
      split_ifs <;>
      simp only [String.reduceEq, false_iff, true_iff, iff_true, iff_false,
        not_and, not_le, not_lt] <;>
      first
        | rfl
        | linarith
        | (constructor <;> linarith)
        | (intro h5; linarith)
  · refine ⟨?_, ?_, ?_, ?_⟩ <;> norm_num [get_bmi_category]

/-- C3: when the weight or height field is non-numeric (parse failure) or
non-positive, calculate_bmi rejects synchronously: the file state is
untouched (no record appended) and the outcome is a rejection, never a
completed background calculation. -/
theorem calculate_bmi_rejects_invalid (fs : FileState) (ts : String)
    (weight_var height_var : Option ℚ)
    (hinv : ∀ w h, weight_var = some w → height_var = some h → w ≤ 0 ∨ h ≤ 0) :
    ∃ msg, calculate_bmi fs ts weight_var height_var =
      (fs, Outcome.rejected msg) := by
  cases weight_var with
  | none => cases height_var <;> exact ⟨_, rfl⟩
  | some w =>
    cases height_var with
    | none => exact ⟨_, rfl⟩
    | some h =>
      refine ⟨"Please enter valid positive values", ?_⟩
      simp [calculate_bmi, hinv w h rfl rfl]

/-- Witness for C3 at the spec scenario weight=0, height=170. -/
theorem calculate_bmi_rejects_invalid_witness :
    ∃ msg, calculate_bmi FileState.missing "2024-01-01T00:00:00"
      (some 0) (some 170) = (FileState.missing, Outcome.rejected msg) :=
  calculate_bmi_rejects_invalid FileState.missing "2024-01-01T00:00:00"
    (some 0) (some 170)
    (fun w h hw hh => by
      injection hw with hw
      exact Or.inl (le_of_eq hw.symm))

/-- C4: append then loadAll yields a sequence whose last element is the
appended record, for every prior file state. -/
theorem save_then_load_last (fs : FileState) (data : Record) :
    (load_history (save_to_history fs data)).getLast? = some data := by
  simp [save_to_history, load_history]

/-- C5: appending N records sequentially from an empty history makes
loadAll return exactly those N records in order, and each append is a full
read-modify-write: read the existing log, add the record, overwrite. -/
theorem append_n_then_load :
    (∀ records : List Record,
      load_history (records.foldl save_to_history FileState.missing) = records) ∧
    (∀ (fs : FileState) (data : Record),
      save_to_history fs data = FileState.contents (load_history fs ++ [data])) := by
  refine ⟨fun records => ?_, fun fs data => rfl⟩
  rw [load_foldl_save]
  simp [load_history]

/-- C6: loadAll is a total function into record sequences: no error is
ever propagated, and a missing or corrupt (unreadable or unparseable,
including empty) backing file yields the empty sequence. -/
theorem load_history_never_fails :
    load_history FileState.missing = [] ∧
    load_history FileState.corrupt = [] ∧
    ∀ fs : FileState, ∃ l : List Record, load_history fs = l :=
  ⟨rfl, rfl, fun _ => ⟨_, rfl⟩⟩

/-- C7: the record created by _calculate_in_thread satisfies the BMI
invariant, every append is pure extension (existing records are neither
mutated nor removed), and a store satisfying the invariant still satisfies
it after appending such a record. -/
theorem history_store_invariant (weight height : ℚ) (ts : String)
    (fs : FileState) (hfs : storeInvariant (load_history fs)) :
    bmiInvariant (calculateInThreadRecord weight height ts) ∧
    load_history (calculateInThread weight height ts fs) =
      load_history fs ++ [calculateInThreadRecord weight height ts] ∧
    storeInvariant (load_history (calculateInThread weight height ts fs)) := by
  refine ⟨rfl, rfl, ?_⟩
  intro r hr
  rw [show load_history (calculateInThread weight height ts fs) =
        load_history fs ++ [calculateInThreadRecord weight height ts] from rfl,
      List.mem_append] at hr
  rcases hr with h | h
  · exact hfs r h
  · rw [List.mem_singleton] at h
    subst h
    rfl

/-- Witness for C7: an empty store plus one created record. -/
theorem history_store_invariant_witness :
    bmiInvariant (calculateInThreadRecord 70 175 "2024-01-01T00:00:00") ∧
    load_history (calculateInThread 70 175 "2024-01-01T00:00:00" FileState.missing) =
      load_history FileState.missing ++
        [calculateInThreadRecord 70 175 "2024-01-01T00:00:00"] ∧
    storeInvariant
      (load_history (calculateInThread 70 175 "2024-01-01T00:00:00" FileState.missing)) :=
  history_store_invariant 70 175 "2024-01-01T00:00:00" FileState.missing
    (fun r hr => absurd hr (List.not_mem_nil r))

/-- C8: the three concrete spec scenarios: 70 kg at 175 cm gives 22.86,
Normal Weight; 45 kg at 170 cm gives 15.57, Underweight; 110 kg at 180 cm
gives 33.95, Obese, both for the raw computation and the built record. -/
theorem concrete_scenarios :
    calculate_bmi_process 70 175 = 22.86 ∧
    (calculateInThreadRecord 70 175 "t").bmi = 22.86 ∧
    (calculateInThreadRecord 70 175 "t").category = "Normal Weight" ∧
    calculate_bmi_process 45 170 = 15.57 ∧
    (calculateInThreadRecord 45 170 "t").bmi = 15.57 ∧
    (calculateInThreadRecord 45 170 "t").category = "Underweight" ∧
    calculate_bmi_process 110 180 = 33.95 ∧
    (calculateInThreadRecord 110 180 "t").bmi = 33.95 ∧
    (calculateInThreadRecord 110 180 "t").category = "Obese" := by
  have e1 : (70 : ℚ) / ((175 : ℚ) / 100) ^ 2 * 100 = 16000 / 7 := by norm_num
  have e2 : (45 : ℚ) / ((170 : ℚ) / 100) ^ 2 * 100 = 450000 / 289 := by norm_num
  have e3 : (110 : ℚ) / ((180 : ℚ) / 100) ^ 2 * 100 = 275000 / 81 := by norm_num
  have r1 : pyRound2 ((70 : ℚ) / ((175 : ℚ) / 100) ^ 2) = 22.86 := by
    unfold pyRound2
    rw [e1, roundHalfEven_up (16000 / 7 : ℚ) 2285 (by norm_num) (by norm_num)]
    norm_num
  have r2 : pyRound2 ((45 : ℚ) / ((170 : ℚ) / 100) ^ 2) = 15.57 := by
    unfold pyRound2
    rw [e2, roundHalfEven_down (450000 / 289 : ℚ) 1557 (by norm_num) (by norm_num)]
    norm_num
  have r3 : pyRound2 ((110 : ℚ) / ((180 : ℚ) / 100) ^ 2) = 33.95 := by
    unfold pyRound2
    rw [e3, roundHalfEven_down (275000 / 81 : ℚ) 3395 (by norm_num) (by norm_num)]
    norm_num
  refine ⟨?_, ?_, ?_, ?_, ?_, ?_, ?_, ?_, ?_⟩ <;>
    simp only [calculate_bmi_process, calculateInThreadRecord, r1, r2, r3] <;>
    norm_num [get_bmi_category]

/-- C9: a trend refresh consumes exactly the last N loaded records, N=10
for the chart and N=20 for the tabular listing: each slice is the reversed
take of the reversed history, has length min N (length), and the records
before it are exactly the ones not displayed. -/
theorem trend_views_consume_last_n (history : List Record) :
    update_chart_records history = (history.reverse.take 10).reverse ∧
    display_history_slice history = (history.reverse.take 20).reverse ∧
    (update_chart_records history).length = min 10 history.length ∧
    (display_history_slice history).length = min 20 history.length ∧
    history.take (history.length - 10) ++ update_chart_records history = history ∧
    history.take (history.length - 20) ++ display_history_slice history = history := by
  refine ⟨?_, ?_, ?_, ?_, List.take_append_drop _ _, List.take_append_drop _ _⟩
  · rw [show update_chart_records history = history.rtake 10 from rfl,
      List.rtake_eq_reverse_take_reverse]
  · rw [show display_history_slice history = history.rtake 20 from rfl,
      List.rtake_eq_reverse_take_reverse]
  · simp only [update_chart_records, List.length_drop]; omega
  · simp only [display_history_slice, List.length_drop]; omega

/-- C10: the treeview rows equal the last-20 slice in original insertion
order (reversing the slice and inserting each row at index 0 restores
chronological order, oldest in the top row), and when the history has at
most 20 records all of them are displayed. -/
theorem display_history_rows_chronological (history : List Record) :
    display_history_rows history = display_history_slice history ∧
    display_history_rows history = history.drop (history.length - 20) ∧
    (history.length ≤ 20 → display_history_rows history = history) := by
  have h : display_history_rows history = display_history_slice history := by
    simp [display_history_rows, foldl_cons_eq_reverse_append]
  refine ⟨h, h, fun hle => ?_⟩
  simp [h, display_history_slice, Nat.sub_eq_zero_of_le hle]

/-- Witness for C10 at a singleton history. -/
theorem display_history_rows_chronological_witness :
    display_history_rows
      [{ timestamp := "2024-01-01T00:00:00", weight := 70, height := 175,
         bmi := 22.86, category := "Normal Weight" }] =
      [{ timestamp := "2024-01-01T00:00:00", weight := 70, height := 175,
         bmi := 22.86, category := "Normal Weight" }] :=
  (display_history_rows_chronological _).2.2 (by simp)

end BMI
